import Mathlib

/-! Odroid lights HAL (`lights.c`): shallow embedding and verified properties.

The C file talks to the operating system only through library calls
(`open`, `write`, `close`, `malloc`, `init_module`, ...).  The embedding makes
that interaction explicit:

* every library call appends one `Event` to a chronological trace kept in the
  `World`; the event records the arguments and the value the call returned;
* what a call returns is decided by an `Env`, an oracle that may look at the
  whole history of earlier events.  Quantifying over every `Env` covers every
  behaviour of the kernel, the file system and the allocator;
* pointers are natural numbers, `0` is `NULL`; C strings are lists of bytes
  whose terminating NUL is the end of the list (or the first `0` byte).

`LOGD` expands to `do{}while(0)` (the file sets `DEBUG` to 0) and `LOGE` only
writes to the Android log, so neither is modelled.
-/

namespace Lights

/-! ## Data model -/

/-- Function pointers that `lights.c` stores in a device record; `null` is the
all-zero pointer left by `memset`. -/
inductive FnPtr where
  | null
  | close_lights
  | set_light_backlight
  | set_light_keyboard
  | set_light_buttons
  | set_light_battery
  | set_light_notifications
  | set_light_attention
  deriving DecidableEq, Repr

/-- Modelled from the spec: `struct hw_device_t` of `hardware/hardware.h`
(tag, version, owning module reference, reserved words, close function
pointer). -/
structure hw_device_t where
  tag : Nat
  version : Nat
  module : Nat
  reserved : List Nat
  close : FnPtr
  deriving DecidableEq, Repr

/-- Modelled from the spec: `struct light_device_t` of `hardware/lights.h`, the
common header followed by the set-light function pointer. -/
structure light_device_t where
  common : hw_device_t
  set_light : FnPtr
  deriving DecidableEq, Repr

/-- Modelled from the spec: `struct light_state_t` of `hardware/lights.h`; only
the packed 32-bit `color` is read by this file. -/
structure light_state_t where
  color : Nat
  deriving DecidableEq, Repr

/-- One library call, with its arguments and the value it returned. -/
inductive Event where
  | mutex_init
  | mutex_lock
  | mutex_unlock
  | sys_open (path : String) (fd : Int)
  | sys_fstat (fd : Int) (st_size : Nat)
  | malloc (size : Nat) (ptr : Nat)
  | sys_read (fd : Int) (buf : Nat) (count : Nat)
  | sys_close (fd : Int)
  | init_module (image : Nat) (len : Nat) (ret : Int)
  | free (ptr : Nat)
  | sys_write (fd : Int) (bytes : List Char) (ret : Int)
  | delete_module (name : String) (ret : Int)
  deriving DecidableEq, Repr

/-- The environment: what each library call returns, given the history of the
calls made so far.  `sizeof_light_device_t` is the platform's
`sizeof(struct light_device_t)`. -/
structure Env where
  open_ret : List Event → String → Int
  fstat_size : List Event → Int → Nat
  malloc_ret : List Event → Nat → Nat
  write_ret : List Event → Int → List Char → Int
  init_module_ret : List Event → Nat → Nat → Int
  delete_module_ret : List Event → String → Int
  sizeof_light_device_t : Nat

/-- Process state: the trace of library calls, the `pthread_once` control
`g_init` (true once the initializer has run) and the heap of device records,
keyed by address. -/
structure World where
  trace : List Event
  g_init : Bool
  heap : List (Nat × light_device_t)
  deriving DecidableEq, Repr

/-- Append one event to the trace. -/
def World.emit (w : World) (e : Event) : World :=
  { w with trace := w.trace ++ [e] }

/-- The record stored at address `p`, if any. -/
def World.load (w : World) (p : Nat) : Option light_device_t :=
  (w.heap.find? (fun kv => kv.1 == p)).map Prod.snd

/-- Store record `d` at address `p`. -/
def World.store (w : World) (p : Nat) (d : light_device_t) : World :=
  { w with heap := (p, d) :: w.heap.filter (fun kv => kv.1 != p) }

/-! ## Constants of the C file and of the headers it includes -/

/-- The duty-cycle file (line 57). -/
def BACKLIGHT : String := "/sys/devices/platform/pwm-ctrl/duty0"

/-- The enable file (line 58). -/
def BACKLIGHT_EN : String := "/sys/devices/platform/pwm-ctrl/enable0"

/-- The frequency file (line 59). -/
def BACKLIGHT_FREQ : String := "/sys/devices/platform/pwm-ctrl/freq0"

/-- The module image opened on line 75. -/
def PWM_MESON_KO : String := "/system/lib/modules/pwm-meson.ko"

/-- The module image opened on line 89. -/
def PWM_CTRL_KO : String := "/system/lib/modules/pwm-ctrl.ko"

/-- Bytes of a string constant (without the terminating NUL). -/
def cstr (s : String) : List Nat := s.data.map Char.toNat

/-- Modelled from the spec: the identifier `LIGHT_ID_BACKLIGHT` of
`hardware/lights.h`. -/
def LIGHT_ID_BACKLIGHT : List Nat := cstr "backlight"

/-- Modelled from the spec: the identifier `LIGHT_ID_KEYBOARD` of
`hardware/lights.h`. -/
def LIGHT_ID_KEYBOARD : List Nat := cstr "keyboard"

/-- Modelled from the spec: the identifier `LIGHT_ID_BUTTONS` of
`hardware/lights.h`. -/
def LIGHT_ID_BUTTONS : List Nat := cstr "buttons"

/-- Modelled from the spec: the identifier `LIGHT_ID_BATTERY` of
`hardware/lights.h`. -/
def LIGHT_ID_BATTERY : List Nat := cstr "battery"

/-- Modelled from the spec: the identifier `LIGHT_ID_NOTIFICATIONS` of
`hardware/lights.h`. -/
def LIGHT_ID_NOTIFICATIONS : List Nat := cstr "notifications"

/-- Modelled from the spec: the identifier `LIGHT_ID_ATTENTION` of
`hardware/lights.h`. -/
def LIGHT_ID_ATTENTION : List Nat := cstr "attention"

/-- Modelled from the spec: the device tag `HARDWARE_DEVICE_TAG` of
`hardware/hardware.h`, the four characters `HWDT` packed into a word.  No
property below depends on its value. -/
def HARDWARE_DEVICE_TAG : Nat := 0x48574454

/-- `EINVAL` of `errno.h`. -/
def EINVAL : Int := 22

/-- `EXIT_FAILURE` of `stdlib.h`. -/
def EXIT_FAILURE : Int := 1

/-- Number of reserved words in `hw_device_t`. -/
def HW_RESERVED_WORDS : Nat := 12

/-! ## Library calls -/

/-- C `strcmp` on byte strings: the end of a list, or a `0` byte, terminates the
string; the result is the difference of the first differing bytes. -/
def strcmp : List Nat → List Nat → Int
  | [], [] => 0
  | [], b :: _ => 0 - (b : Int)
  | a :: _, [] => (a : Int)
  | a :: as, b :: bs =>
    if a = b then (if a = 0 then 0 else strcmp as bs) else (a : Int) - (b : Int)

/-- `sprintf(value, "%d\n", n)` for a non-negative `n`: the characters placed in
`value` before the terminating NUL.  Its length is `sprintf`'s return value. -/
def sprintf_d_nl (n : Nat) : List Char := (Nat.repr n).data ++ ['\n']

def pthread_mutex_init (w : World) : World := w.emit Event.mutex_init
def pthread_mutex_lock (w : World) : World := w.emit Event.mutex_lock
def pthread_mutex_unlock (w : World) : World := w.emit Event.mutex_unlock

def sys_open (env : Env) (w : World) (path : String) : Int × World :=
  let fd := env.open_ret w.trace path
  (fd, w.emit (Event.sys_open path fd))

/-- `fstat(fd, &st)` followed by reading `st.st_size`. -/
def sys_fstat (env : Env) (w : World) (fd : Int) : Nat × World :=
  let sz := env.fstat_size w.trace fd
  (sz, w.emit (Event.sys_fstat fd sz))

def malloc (env : Env) (w : World) (size : Nat) : Nat × World :=
  let p := env.malloc_ret w.trace size
  (p, w.emit (Event.malloc size p))

def sys_read (w : World) (fd : Int) (buf count : Nat) : World :=
  w.emit (Event.sys_read fd buf count)

def sys_close (w : World) (fd : Int) : World := w.emit (Event.sys_close fd)

def init_module (env : Env) (w : World) (image len : Nat) : Int × World :=
  let r := env.init_module_ret w.trace image len
  (r, w.emit (Event.init_module image len r))

/-- `free(p)`: the call is recorded and the record at `p` is gone. -/
def free (w : World) (p : Nat) : World :=
  { w with trace := w.trace ++ [Event.free p],
           heap := w.heap.filter (fun kv => kv.1 != p) }

def sys_write (env : Env) (w : World) (fd : Int) (bytes : List Char) : Int × World :=
  let r := env.write_ret w.trace fd bytes
  (r, w.emit (Event.sys_write fd bytes r))

def delete_module (env : Env) (w : World) (name : String) : Int × World :=
  let r := env.delete_module_ret w.trace name
  (r, w.emit (Event.delete_module name r))

/-! ## The functions of `lights.c` -/

/-- `init_globals` (lines 67-117). -/
def init_globals (env : Env) (w0 : World) : World :=
  let w := pthread_mutex_init w0
  -- load pwm-meson kernel module
  let (fd, w) := sys_open env w PWM_MESON_KO
  let (image_size, w) := sys_fstat env w fd
  let (image, w) := malloc env w image_size
  let w := sys_read w fd image image_size
  let w := sys_close w fd
  let (r, w) := init_module env w image image_size
  if r ≠ 0 then w else
  let w := free w image
  -- load pwm-ctrl kernel module
  let (fd, w) := sys_open env w PWM_CTRL_KO
  let (image_size, w) := sys_fstat env w fd
  let (image, w) := malloc env w image_size
  let w := sys_read w fd image image_size
  let w := sys_close w fd
  let (r, w) := init_module env w image image_size
  if r ≠ 0 then w else
  let w := free w image
  let (fd, w) := sys_open env w BACKLIGHT_FREQ
  let w :=
    if fd > 0 then
      let value := sprintf_d_nl 1000
      let nwr := value.length
      let (_, w) := sys_write env w fd (value.take nwr)
      sys_close w fd
    else w
  let (fd, w) := sys_open env w BACKLIGHT_EN
  let w :=
    if fd > 0 then
      let value := sprintf_d_nl 1
      let nwr := value.length
      let (_, w) := sys_write env w fd (value.take nwr)
      sys_close w fd
    else w
  w

/-- `is_lit` (lines 119-123). -/
def is_lit (state : light_state_t) : Nat := (state.color % 2 ^ 32) &&& 0x00ffffff

/-- The brightness level computed on lines 135-137: the low byte of the colour,
shifted left by two, plus three when that is positive.  The value never exceeds
1023, so the C `int` holds it exactly. -/
def light_level (color : Nat) : Nat :=
  let light_level := (color % 2 ^ 32) &&& 0xff
  let light_level := light_level <<< 2
  if light_level > 0 then light_level + 3 else light_level

/-- `set_light_backlight` (lines 126-148): return value and new world. -/
def set_light_backlight (env : Env) (w : World) (_dev : Nat) (state : light_state_t) :
    Int × World :=
  let ret : Int := -1
  let w := pthread_mutex_lock w
  let light_level := light_level state.color
  let (fd, w) := sys_open env w BACKLIGHT
  let (ret, w) :=
    if fd > 0 then
      let value := sprintf_d_nl light_level
      let nwr := value.length
      let (ret, w) := sys_write env w fd (value.take nwr)
      (ret, sys_close w fd)
    else (ret, w)
  let w := pthread_mutex_unlock w
  (ret, w)

def set_light_buttons (w : World) (_dev : Nat) (_state : light_state_t) : Int × World :=
  (0, w)

def set_light_battery (w : World) (_dev : Nat) (_state : light_state_t) : Int × World :=
  (0, w)

def set_light_keyboard (w : World) (_dev : Nat) (_state : light_state_t) : Int × World :=
  (0, w)

def set_light_notifications (w : World) (_dev : Nat) (_state : light_state_t) :
    Int × World :=
  (0, w)

def set_light_attention (w : World) (_dev : Nat) (_state : light_state_t) : Int × World :=
  (0, w)

/-- `close_lights` (lines 195-211). -/
def close_lights (env : Env) (w : World) (dev : Nat) : Int × World :=
  let w := free w dev
  let (r, w) := delete_module env w "pwm-meson"
  if r ≠ 0 then (EXIT_FAILURE, w) else
  let (r, w) := delete_module env w "pwm-ctrl"
  if r ≠ 0 then (EXIT_FAILURE, w) else
  (0, w)

/-- `pthread_once(&g_init, init_globals)`: a run-once gate. -/
def pthread_once (env : Env) (w : World) : World :=
  if w.g_init then w else { init_globals env w with g_init := true }

/-- The setter chosen by the `strcmp` chain of lines 222-237, or `none` when no
identifier matches. -/
def select_setter (name : List Nat) : Option FnPtr :=
  if 0 = strcmp LIGHT_ID_BACKLIGHT name then some FnPtr.set_light_backlight
  else if 0 = strcmp LIGHT_ID_KEYBOARD name then some FnPtr.set_light_keyboard
  else if 0 = strcmp LIGHT_ID_BUTTONS name then some FnPtr.set_light_buttons
  else if 0 = strcmp LIGHT_ID_BATTERY name then some FnPtr.set_light_battery
  else if 0 = strcmp LIGHT_ID_NOTIFICATIONS name then some FnPtr.set_light_notifications
  else if 0 = strcmp LIGHT_ID_ATTENTION name then some FnPtr.set_light_attention
  else none

/-- The all-zero record left by `memset(dev, 0, sizeof(*dev))`. -/
def zero_device : light_device_t :=
  { common := { tag := 0, version := 0, module := 0,
                reserved := List.replicate HW_RESERVED_WORDS 0, close := FnPtr.null },
    set_light := FnPtr.null }

/-- `open_lights` (lines 216-255).  `device` is the value held by `*device`
before the call; the result is the return value, the new world and the value
held by `*device` afterwards. -/
def open_lights (env : Env) (w : World) (module : Nat) (name : List Nat) (device : Nat) :
    Int × World × Nat :=
  match select_setter name with
  | none => (-EINVAL, w, device)
  | some set_light =>
    let w := pthread_once env w
    let (dev, w) := malloc env w env.sizeof_light_device_t
    if dev = 0 then (-EINVAL, w, device) else
    let d := zero_device
    let d := { d with common := { d.common with tag := HARDWARE_DEVICE_TAG } }
    let d := { d with common := { d.common with version := 0 } }
    let d := { d with common := { d.common with module := module } }
    let d := { d with common := { d.common with close := FnPtr.close_lights } }
    let d := { d with set_light := set_light }
    let w := w.store dev d
    (0, w, dev)

/-! ## Concrete environments used to exercise the theorems -/

/-- Size of the `value` buffer declared on lines 101 and 131. -/
def VALUE_BUF_SIZE : Nat := 20

/-- An environment in which every call succeeds. -/
def env_ok : Env :=
  { open_ret := fun _ _ => 3
    fstat_size := fun _ _ => 4096
    malloc_ret := fun _ _ => 4096
    write_ret := fun _ _ bytes => (bytes.length : Int)
    init_module_ret := fun _ _ _ => 0
    delete_module_ret := fun _ _ => 0
    sizeof_light_device_t := 68 }

/-- An environment in which every call fails. -/
def env_fail : Env :=
  { open_ret := fun _ _ => -1
    fstat_size := fun _ _ => 0
    malloc_ret := fun _ _ => 0
    write_ret := fun _ _ _ => -1
    init_module_ret := fun _ _ _ => -1
    delete_module_ret := fun _ _ => -1
    sizeof_light_device_t := 68 }

/-- A fresh process: nothing called yet, initializer not run, empty heap. -/
def world0 : World := { trace := [], g_init := false, heap := [] }

/-! ## Specification-side vocabulary -/

/-- Events of one kernel-module load as written on lines 75-82 and 89-95: open
the image file, size it, allocate, read, close, `init_module`. -/
def load_events (path : String) (fd : Int) (size image : Nat) (ret : Int) : List Event :=
  [Event.sys_open path fd, Event.sys_fstat fd size, Event.malloc size image,
   Event.sys_read fd image size, Event.sys_close fd, Event.init_module image size ret]

/-- Events of one best-effort sysfs write as written on lines 103-108 and
110-115: open, and only for a descriptor above 0 one write and the close. -/
def sysfs_events (path : String) (fd : Int) (bytes : List Char) (ret : Int) : List Event :=
  Event.sys_open path fd ::
    (if 0 < fd then [Event.sys_write fd bytes ret, Event.sys_close fd] else [])

/-- The values of one module load are the environment's answers, asked in the
order of the calls, at the history `hist` reached before the open. -/
def load_answers (env : Env) (hist : List Event) (path : String) (fd : Int) (size image : Nat)
    (ret : Int) : Prop :=
  fd = env.open_ret hist path ∧
  size = env.fstat_size (hist ++ [Event.sys_open path fd]) fd ∧
  image = env.malloc_ret (hist ++ [Event.sys_open path fd, Event.sys_fstat fd size]) size ∧
  ret = env.init_module_ret
    (hist ++ [Event.sys_open path fd, Event.sys_fstat fd size, Event.malloc size image,
      Event.sys_read fd image size, Event.sys_close fd]) image size

/-- The descriptor of one sysfs write is the environment's answer to the open at
the history `hist`, and `ret` its answer to the write that follows. -/
def sysfs_answers (env : Env) (hist : List Event) (path : String) (bytes : List Char)
    (fd ret : Int) : Prop :=
  fd = env.open_ret hist path ∧
  ret = env.write_ret (hist ++ [Event.sys_open path fd]) fd bytes

/-- The number a string of decimal digit characters denotes. -/
def decimal_value (digits : List Char) : Nat :=
  digits.foldl (fun acc ch => 10 * acc + (ch.toNat - '0'.toNat)) 0

/-- The string is a decimal numeral: non-empty, digit characters only, and no
leading zero unless it is the single digit `0`. -/
def canonical_decimal (digits : List Char) : Bool :=
  digits.all (fun ch => decide ('0'.toNat ≤ ch.toNat ∧ ch.toNat ≤ '9'.toNat)) &&
    (digits == ['0'] || digits.head? != some '0') && !digits.isEmpty

/-- The C string held in a byte buffer: the bytes before the first NUL. -/
def c_string (buf : List Nat) : List Nat := buf.takeWhile (fun b => b != 0)

/-- The six identifiers and the setter each one selects, as the spec lists
them. -/
def light_table : List (List Nat × FnPtr) :=
  [(LIGHT_ID_BACKLIGHT, FnPtr.set_light_backlight),
   (LIGHT_ID_KEYBOARD, FnPtr.set_light_keyboard),
   (LIGHT_ID_BUTTONS, FnPtr.set_light_buttons),
   (LIGHT_ID_BATTERY, FnPtr.set_light_battery),
   (LIGHT_ID_NOTIFICATIONS, FnPtr.set_light_notifications),
   (LIGHT_ID_ATTENTION, FnPtr.set_light_attention)]

/-- An environment in which every open succeeds with descriptor 0 (as in a
process whose standard input is closed). -/
def env_fd_zero : Env := { env_ok with open_ret := fun _ _ => 0 }

/-- An environment in which only `malloc` fails. -/
def env_no_mem : Env := { env_ok with malloc_ret := fun _ _ => 0 }

/-! ## Sequences of host calls -/

/-- A call the host makes into the module: `open` through the module's method
table, `close` and `set_light` through a device handle. -/
inductive Call where
  | open_lights (module : Nat) (name : List Nat) (device : Nat)
  | close_lights (dev : Nat)
  | set_light (dev : Nat) (state : light_state_t)
  deriving DecidableEq, Repr

/-- Invoke the function a `set_light` pointer designates. -/
def call_set_light (env : Env) (w : World) (f : FnPtr) (dev : Nat) (state : light_state_t) :
    Int × World :=
  match f with
  | FnPtr.set_light_backlight => set_light_backlight env w dev state
  | FnPtr.set_light_keyboard => set_light_keyboard w dev state
  | FnPtr.set_light_buttons => set_light_buttons w dev state
  | FnPtr.set_light_battery => set_light_battery w dev state
  | FnPtr.set_light_notifications => set_light_notifications w dev state
  | FnPtr.set_light_attention => set_light_attention w dev state
  | _ => (0, w)

/-- The world after one host call.  `set_light` goes through the pointer stored
in the record at `dev`; a handle with no record is ignored. -/
def step (env : Env) (w : World) : Call → World
  | Call.open_lights module name device => (open_lights env w module name device).2.1
  | Call.close_lights dev => (close_lights env w dev).2
  | Call.set_light dev state =>
    match w.load dev with
    | some d => (call_set_light env w d.set_light dev state).2
    | none => w

/-- The world after a sequence of host calls, made one after the other. -/
def run (env : Env) (w : World) (calls : List Call) : World := calls.foldl (step env) w

/-- Number of times `init_globals` has run: it is the only caller of
`pthread_mutex_init`, and calls it once. -/
def init_runs (w : World) : Nat := w.trace.count Event.mutex_init

/-- The call is an `open_lights` naming one of the six identifiers. -/
def recognised : Call → Bool
  | Call.open_lights _ name _ => decide (c_string name ∈ light_table.map Prod.fst)
  | _ => false

/-- The run-once invariant: the initializer has run once if the gate is shut and
not at all if it is still open. -/
def once_inv (w : World) : Prop := init_runs w = if w.g_init then 1 else 0

/-- An environment in which both module loads fail but everything else
succeeds: the initializer aborts after its first `init_module`. -/
def env_abort : Env := { env_ok with init_module_ret := fun _ _ _ => -1 }

/-- A sample host session: a rejected open, two accepted opens with a close and
a brightness request in between. -/
def demo_calls : List Call :=
  [Call.open_lights 7 (cstr "wifi") 0,
   Call.open_lights 7 LIGHT_ID_BACKLIGHT 0,
   Call.set_light 4096 { color := 0xFF },
   Call.close_lights 4096,
   Call.open_lights 7 LIGHT_ID_BUTTONS 0]

/-! ## Concurrent callers of the backlight setter -/

/-- Where a thread stands inside `set_light_backlight`: each point is the
library call the thread makes next. -/
inductive Pc where
  | at_lock
  | at_open
  | at_write (fd : Int)
  | at_close (fd : Int) (ret : Int)
  | at_unlock (ret : Int)
  | returned (ret : Int)
  deriving DecidableEq, Repr

/-- A host thread running `set_light_backlight` on its own light state. -/
structure Thread where
  state : light_state_t
  pc : Pc
  deriving DecidableEq, Repr

/-- The process with several threads inside `set_light_backlight`: the shared
world, the thread holding `g_lock` (if any) and the threads. -/
structure Sys where
  world : World
  lock_owner : Option Nat
  threads : List Thread
  deriving DecidableEq, Repr

/-- Thread `i` makes its next library call (lines 134-147), if it can: a thread
at `pthread_mutex_lock` waits while another holds the mutex, a thread that has
returned does nothing. -/
def thread_step (env : Env) (sys : Sys) (i : Nat) : Sys :=
  match sys.threads[i]? with
  | none => sys
  | some t =>
    match t.pc with
    | Pc.at_lock =>
      match sys.lock_owner with
      | some _ => sys
      | none =>
        { world := pthread_mutex_lock sys.world, lock_owner := some i,
          threads := sys.threads.set i { t with pc := Pc.at_open } }
    | Pc.at_open =>
      let (fd, w) := sys_open env sys.world BACKLIGHT
      { sys with
        world := w,
        threads := sys.threads.set i
          { t with pc := if fd > 0 then Pc.at_write fd else Pc.at_unlock (-1) } }
    | Pc.at_write fd =>
      let value := sprintf_d_nl (light_level t.state.color)
      let nwr := value.length
      let (ret, w) := sys_write env sys.world fd (value.take nwr)
      { sys with world := w, threads := sys.threads.set i { t with pc := Pc.at_close fd ret } }
    | Pc.at_close fd ret =>
      { sys with
        world := sys_close sys.world fd,
        threads := sys.threads.set i { t with pc := Pc.at_unlock ret } }
    | Pc.at_unlock ret =>
      { world := pthread_mutex_unlock sys.world, lock_owner := none,
        threads := sys.threads.set i { t with pc := Pc.returned ret } }
    | Pc.returned _ => sys

/-- The threads take steps in the order the schedule names them. -/
def interleave (env : Env) (sys : Sys) (schedule : List Nat) : Sys :=
  schedule.foldl (thread_step env) sys

/-- Concurrent callers, one per light state, none of which has started. -/
def spawn (w : World) (states : List light_state_t) : Sys :=
  { world := w, lock_owner := none,
    threads := states.map (fun s => { state := s, pc := Pc.at_lock }) }

/-- The thread is between acquiring and releasing `g_lock`. -/
def holds_lock : Pc → Bool
  | Pc.at_open => true
  | Pc.at_write _ => true
  | Pc.at_close _ _ => true
  | Pc.at_unlock _ => true
  | _ => false

/-- The thread is between the open and the close of the duty-cycle file. -/
def file_open : Pc → Bool
  | Pc.at_write _ => true
  | Pc.at_close _ _ => true
  | _ => false

/-- The events of one whole `set_light_backlight` call: lock, open, then either
write and close on a descriptor above 0 or nothing, unlock. -/
def call_block : List Event → Bool
  | [Event.mutex_lock, Event.sys_open p fd, Event.sys_write fd1 _ _, Event.sys_close fd2,
      Event.mutex_unlock] => p == BACKLIGHT && decide (0 < fd) && fd1 == fd && fd2 == fd
  | [Event.mutex_lock, Event.sys_open p fd, Event.mutex_unlock] =>
    p == BACKLIGHT && decide (¬ 0 < fd)
  | _ => false

/-- The events the lock holder has produced so far in its call. -/
def progress (t : Thread) (part : List Event) : Prop :=
  match t.pc with
  | Pc.at_lock => False
  | Pc.at_open => part = [Event.mutex_lock]
  | Pc.at_write fd => 0 < fd ∧ part = [Event.mutex_lock, Event.sys_open BACKLIGHT fd]
  | Pc.at_close fd ret =>
    0 < fd ∧ part = [Event.mutex_lock, Event.sys_open BACKLIGHT fd,
      Event.sys_write fd (sprintf_d_nl (light_level t.state.color)) ret]
  | Pc.at_unlock _ => call_block (part ++ [Event.mutex_unlock]) = true
  | Pc.returned _ => False

/-- The invariant of the interleaved system: exactly the lock owner is inside
the locked region, and the trace is whole call blocks followed by the events of
the call in progress. -/
def sys_inv (base : List Event) (sys : Sys) : Prop :=
  (∀ i t, sys.threads[i]? = some t → (holds_lock t.pc = true ↔ sys.lock_owner = some i)) ∧
  ∃ (blocks : List (List Event)) (part : List Event),
    (∀ b ∈ blocks, call_block b = true) ∧
    sys.world.trace = base ++ blocks.flatten ++ part ∧
    match sys.lock_owner with
    | none => part = []
    | some i => ∃ t, sys.threads[i]? = some t ∧ progress t part

/-- Two concurrent callers asking for full and for minimal brightness. -/
def demo_states : List light_state_t := [{ color := 0xFF }, { color := 1 }]

/-- A schedule in which the second caller tries to enter while the first is
between its open and its write. -/
def demo_schedule : List Nat := [0, 1, 0, 1]

/-! ## Brightness level -/

theorem land_ff (c : Nat) : (c % 2 ^ 32) &&& 0xff = c % 256 := by
  have h : (255 : Nat) = 2 ^ 8 - 1 := by norm_num
  rw [h, Nat.and_pow_two_sub_one_eq_mod]
  exact Nat.mod_mod_of_dvd c (by norm_num)

theorem land_ff_nat (c : Nat) : c &&& 0xff = c % 256 := by
  have h : (255 : Nat) = 2 ^ 8 - 1 := by norm_num
  rw [h, Nat.and_pow_two_sub_one_eq_mod]

theorem light_level_eq (c : Nat) :
    light_level c = if c % 256 = 0 then 0 else 4 * (c % 256) + 3 := by
  unfold light_level
  simp only [land_ff, Nat.shiftLeft_eq]
  split_ifs <;> omega

theorem light_level_le (c : Nat) : light_level c ≤ 1023 := by
  rw [light_level_eq]; split_ifs <;> omega

theorem sprintf_d_nl_length (n : Nat) (h : n ≤ 9999) : (sprintf_d_nl n).length ≤ 5 := by
  have h1 : (Nat.repr n).length ≤ 4 := Nat.repr_length n 4 (by norm_num) (by omega)
  simp only [sprintf_d_nl, List.length_append, List.length_singleton]
  exact Nat.succ_le_succ h1

/-- C10: the level is strictly increasing in the low byte of the colour, lies in
0..1023, is 0 or of the form 4k+3 with 1 <= k <= 255 (so 1..6 never occur), and
its rendering with newline and terminator takes at most 6 bytes, which fits the
20-byte buffer. -/
theorem light_level_monotone_bounded (c1 c2 : Nat) :
    ((c1 &&& 0xff) < (c2 &&& 0xff) → light_level c1 < light_level c2) ∧
    light_level c1 ≤ 1023 ∧
    (light_level c1 = 0 ∨ ∃ k, 1 ≤ k ∧ k ≤ 255 ∧ light_level c1 = 4 * k + 3) ∧
    light_level c1 ∉ [1, 2, 3, 4, 5, 6] ∧
    (sprintf_d_nl (light_level c1)).length + 1 ≤ 6 ∧
    6 ≤ VALUE_BUF_SIZE := by
  refine ⟨?_, light_level_le c1, ?_, ?_, ?_, by decide⟩
  · intro h
    rw [land_ff_nat, land_ff_nat] at h
    rw [light_level_eq, light_level_eq]
    split_ifs <;> omega
  · rw [light_level_eq]
    by_cases h : c1 % 256 = 0
    · left; simp [h]
    · right
      exact ⟨c1 % 256, by omega, by omega, by simp [h]⟩
  · have h := light_level_eq c1
    intro hmem
    simp only [List.mem_cons, List.mem_singleton, List.not_mem_nil, or_false] at hmem
    split_ifs at h <;> omega
  · have := sprintf_d_nl_length (light_level c1) (by have := light_level_le c1; omega)
    omega

/-- Witness for C10 at the colours 1 and 2. -/
theorem light_level_monotone_bounded_witness :
    (1 &&& 0xff) < (2 &&& 0xff) ∧ light_level 1 < light_level 2 :=
  ⟨by decide, (light_level_monotone_bounded 1 2).1 (by decide)⟩

/-! ## Backlight setter -/

theorem set_light_backlight_trace (env : Env) (w : World) (dev : Nat) (state : light_state_t) :
    (set_light_backlight env w dev state).2.trace =
      w.trace ++ [Event.mutex_lock,
        Event.sys_open BACKLIGHT (env.open_ret (w.trace ++ [Event.mutex_lock]) BACKLIGHT)] ++
      (if 0 < env.open_ret (w.trace ++ [Event.mutex_lock]) BACKLIGHT then
        [Event.sys_write (env.open_ret (w.trace ++ [Event.mutex_lock]) BACKLIGHT)
            (sprintf_d_nl (light_level state.color))
            (set_light_backlight env w dev state).1,
          Event.sys_close (env.open_ret (w.trace ++ [Event.mutex_lock]) BACKLIGHT)]
       else []) ++ [Event.mutex_unlock] := by
  simp only [set_light_backlight, pthread_mutex_lock, pthread_mutex_unlock, sys_open, sys_write,
    sys_close, World.emit, List.take_length]
  split_ifs with h <;> simp

theorem set_light_backlight_ret (env : Env) (w : World) (dev : Nat) (state : light_state_t) :
    (set_light_backlight env w dev state).1 =
      if 0 < env.open_ret (w.trace ++ [Event.mutex_lock]) BACKLIGHT then
        env.write_ret
          (w.trace ++ [Event.mutex_lock,
            Event.sys_open BACKLIGHT (env.open_ret (w.trace ++ [Event.mutex_lock]) BACKLIGHT)])
          (env.open_ret (w.trace ++ [Event.mutex_lock]) BACKLIGHT)
          (sprintf_d_nl (light_level state.color))
      else -1 := by
  simp only [set_light_backlight, pthread_mutex_lock, pthread_mutex_unlock, sys_open, sys_write,
    sys_close, World.emit, List.take_length]
  split_ifs with h <;> simp

theorem light_level_low_byte (c : Nat) : light_level c = light_level (c % 256) := by
  rw [light_level_eq, light_level_eq, Nat.mod_mod]

set_option maxRecDepth 100000 in
theorem repr_level_decimal_low_byte : ∀ b < 256,
    canonical_decimal (Nat.repr (light_level b)).data = true ∧
    decimal_value (Nat.repr (light_level b)).data = light_level b := by
  decide

theorem repr_level_decimal (c : Nat) :
    canonical_decimal (Nat.repr (light_level c)).data = true ∧
    decimal_value (Nat.repr (light_level c)).data = light_level c := by
  rw [light_level_low_byte c]
  exact repr_level_decimal_low_byte (c % 256) (Nat.mod_lt c (by norm_num))

/-- C3 fails as stated: the open of the duty-cycle file succeeds with
descriptor 0, yet the call writes nothing and returns -1. -/
theorem set_light_backlight_descriptor_zero_counterexample :
    env_fd_zero.open_ret (world0.trace ++ [Event.mutex_lock]) BACKLIGHT = 0 ∧
    (set_light_backlight env_fd_zero world0 1 { color := 0xFF }).2.trace =
      [Event.mutex_lock, Event.sys_open BACKLIGHT 0, Event.mutex_unlock] ∧
    (set_light_backlight env_fd_zero world0 1 { color := 0xFF }).1 = -1 := by
  refine ⟨rfl, ?_, ?_⟩
  · rw [set_light_backlight_trace]
    rfl
  · rw [set_light_backlight_ret]
    rfl

/-- C3 (amended): for every colour the level is 0 when the low byte is 0 and
((c & 0xff) << 2) + 3 otherwise; when the open of the duty-cycle file yields a
descriptor above 0 (the environment's answer to the open) the call makes one
write on that descriptor, of exactly the decimal digits of the level followed
by one newline, then closes it; those digits are a decimal numeral without
leading zero whose value is the level.  Colour 0 writes "0\n", colour 0xFF
writes "1023\n", colour 1 gives level 7. -/
theorem set_light_backlight_writes_level (env : Env) (w : World) (dev c : Nat) :
    (light_level c = if c &&& 0xff = 0 then 0 else ((c &&& 0xff) <<< 2) + 3) ∧
    (0 < env.open_ret (w.trace ++ [Event.mutex_lock]) BACKLIGHT →
      ∃ fd ret,
        fd = env.open_ret (w.trace ++ [Event.mutex_lock]) BACKLIGHT ∧
        ret = env.write_ret (w.trace ++ [Event.mutex_lock, Event.sys_open BACKLIGHT fd]) fd
          ((Nat.repr (light_level c)).data ++ ['\n']) ∧
        (set_light_backlight env w dev { color := c }).2.trace =
          w.trace ++ [Event.mutex_lock, Event.sys_open BACKLIGHT fd,
            Event.sys_write fd ((Nat.repr (light_level c)).data ++ ['\n']) ret,
            Event.sys_close fd, Event.mutex_unlock]) ∧
    (canonical_decimal (Nat.repr (light_level c)).data = true ∧
      decimal_value (Nat.repr (light_level c)).data = light_level c) ∧
    (Nat.repr (light_level 0x00000000)).data ++ ['\n'] = "0\n".data ∧
    (Nat.repr (light_level 0x000000FF)).data ++ ['\n'] = "1023\n".data ∧
    light_level 0x00000001 = 7 := by
  refine ⟨?_, ?_, repr_level_decimal c, by decide, by decide, by decide⟩
  · rw [light_level_eq, land_ff_nat, Nat.shiftLeft_eq]
    split_ifs <;> omega
  · intro h
    refine ⟨env.open_ret (w.trace ++ [Event.mutex_lock]) BACKLIGHT, _, rfl, rfl, ?_⟩
    rw [set_light_backlight_trace, set_light_backlight_ret, if_pos h, if_pos h]
    simp [sprintf_d_nl]

/-- Witness for C3 (amended): in the all-succeeding environment colour 0xFF
writes "1023\n" on descriptor 3. -/
theorem set_light_backlight_writes_level_witness :
    0 < env_ok.open_ret (world0.trace ++ [Event.mutex_lock]) BACKLIGHT ∧
    (set_light_backlight env_ok world0 1 { color := 0xFF }).2.trace =
      [Event.mutex_lock, Event.sys_open BACKLIGHT 3, Event.sys_write 3 "1023\n".data 5,
        Event.sys_close 3, Event.mutex_unlock] := by
  refine ⟨by decide, ?_⟩
  obtain ⟨fd, ret, h1, h2, h3⟩ :=
    (set_light_backlight_writes_level env_ok world0 1 0xFF).2.1 (by decide)
  have : fd = 3 := h1
  subst this
  have : ret = 5 := h2
  subst this
  rw [h3]
  rfl

/-- C4: when the open yields a descriptor above 0 the return value is the value
returned by the single write on that descriptor, and the descriptor is closed
afterwards; otherwise (open failed or gave descriptor 0) there is no write and no
close and the return value is -1. -/
theorem set_light_backlight_returns_write_code (env : Env) (w : World) (dev : Nat)
    (state : light_state_t) :
    (0 < env.open_ret (w.trace ++ [Event.mutex_lock]) BACKLIGHT →
      ∃ fd bytes,
        fd = env.open_ret (w.trace ++ [Event.mutex_lock]) BACKLIGHT ∧
        (set_light_backlight env w dev state).1 =
          env.write_ret (w.trace ++ [Event.mutex_lock, Event.sys_open BACKLIGHT fd]) fd bytes ∧
        (set_light_backlight env w dev state).2.trace =
          w.trace ++ [Event.mutex_lock, Event.sys_open BACKLIGHT fd,
            Event.sys_write fd bytes (set_light_backlight env w dev state).1,
            Event.sys_close fd, Event.mutex_unlock]) ∧
    (¬ 0 < env.open_ret (w.trace ++ [Event.mutex_lock]) BACKLIGHT →
      (set_light_backlight env w dev state).1 = -1 ∧
      (set_light_backlight env w dev state).2.trace =
        w.trace ++ [Event.mutex_lock,
          Event.sys_open BACKLIGHT (env.open_ret (w.trace ++ [Event.mutex_lock]) BACKLIGHT),
          Event.mutex_unlock]) := by
  constructor
  · intro h
    refine ⟨_, sprintf_d_nl (light_level state.color), rfl, ?_, ?_⟩
    · rw [set_light_backlight_ret, if_pos h]
    · rw [set_light_backlight_trace, if_pos h]; simp
  · intro h
    refine ⟨?_, ?_⟩
    · rw [set_light_backlight_ret, if_neg h]
    · rw [set_light_backlight_trace, if_neg h]; simp

/-- Witness for C4: with every call failing, the setter returns -1 without a
write or a close. -/
theorem set_light_backlight_returns_write_code_witness :
    ¬ 0 < env_fail.open_ret (world0.trace ++ [Event.mutex_lock]) BACKLIGHT ∧
    (set_light_backlight env_fail world0 1 { color := 5 }).1 = -1 ∧
    (set_light_backlight env_fail world0 1 { color := 5 }).2.trace =
      world0.trace ++ [Event.mutex_lock,
        Event.sys_open BACKLIGHT
          (env_fail.open_ret (world0.trace ++ [Event.mutex_lock]) BACKLIGHT),
        Event.mutex_unlock] :=
  ⟨by decide,
    (set_light_backlight_returns_write_code env_fail world0 1 { color := 5 }).2 (by decide)⟩

/-! ## Stub setters -/

/-- C5: each stub setter returns 0 for every handle and every state and leaves
the world (trace of library calls, once-flag, heap) exactly as it was. -/
theorem stub_setters_return_zero_no_effect (w : World) (dev : Nat) (state : light_state_t) :
    set_light_buttons w dev state = (0, w) ∧
    set_light_battery w dev state = (0, w) ∧
    set_light_keyboard w dev state = (0, w) ∧
    set_light_notifications w dev state = (0, w) ∧
    set_light_attention w dev state = (0, w) :=
  ⟨rfl, rfl, rfl, rfl, rfl⟩

/-! ## Closing a device -/

theorem heap_filter_find (h : List (Nat × light_device_t)) (p : Nat) :
    (h.filter (fun kv => kv.1 != p)).find? (fun kv => kv.1 == p) = none := by
  rw [List.find?_eq_none]
  intro x hx
  have := (List.mem_filter.mp hx).2
  simpa using this

theorem close_lights_frame (env : Env) (w : World) (dev : Nat) :
    (close_lights env w dev).2.g_init = w.g_init ∧
    (close_lights env w dev).2.trace.count Event.mutex_init =
      w.trace.count Event.mutex_init := by
  simp only [close_lights, free, delete_module, World.emit]
  split_ifs <;> simp [List.count_append, List.count_cons]

/-- C6: close_lights frees the handle on every path (the free is the first
call, and no record is left at the handle's address), then unloads pwm-meson
first and pwm-ctrl second; it returns 0 exactly when both unloads return 0 and
EXIT_FAILURE (1) when either fails; when the pwm-meson unload fails the pwm-ctrl
unload is not attempted. -/
theorem close_lights_frees_then_unloads (env : Env) (w : World) (dev : Nat) :
    ∃ r1 r2 : Int,
      r1 = env.delete_module_ret (w.trace ++ [Event.free dev]) "pwm-meson" ∧
      r2 = env.delete_module_ret
            (w.trace ++ [Event.free dev, Event.delete_module "pwm-meson" r1]) "pwm-ctrl" ∧
      (close_lights env w dev).2.load dev = none ∧
      ((close_lights env w dev).1 = 0 ↔ r1 = 0 ∧ r2 = 0) ∧
      ((r1 ≠ 0 ∨ r2 ≠ 0) → (close_lights env w dev).1 = EXIT_FAILURE) ∧
      EXIT_FAILURE = 1 ∧
      (r1 ≠ 0 → (close_lights env w dev).2.trace =
        w.trace ++ [Event.free dev, Event.delete_module "pwm-meson" r1]) ∧
      (r1 = 0 → (close_lights env w dev).2.trace =
        w.trace ++ [Event.free dev, Event.delete_module "pwm-meson" r1,
          Event.delete_module "pwm-ctrl" r2]) := by
  refine ⟨_, _, rfl, rfl, ?_⟩
  simp only [close_lights, free, delete_module, World.emit, World.load, EXIT_FAILURE]
  by_cases h1 : env.delete_module_ret (w.trace ++ [Event.free dev]) "pwm-meson" = 0
  · by_cases h2 : env.delete_module_ret (w.trace ++ [Event.free dev,
        Event.delete_module "pwm-meson" 0]) "pwm-ctrl" = 0
    · simp [h1, h2, heap_filter_find]
    · simp [h1, h2, heap_filter_find]
  · simp [h1, heap_filter_find]

/-- Witness for C6: when every unload fails, close_lights returns 1 after the
free and the single pwm-meson attempt. -/
theorem close_lights_frees_then_unloads_witness :
    (close_lights env_fail world0 4096).1 = 1 ∧
    (close_lights env_fail world0 4096).2.trace =
      [Event.free 4096, Event.delete_module "pwm-meson" (-1)] := by
  obtain ⟨r1, r2, h1, _, _, _, hfail, hone, htrace, _⟩ :=
    close_lights_frees_then_unloads env_fail world0 4096
  have hr : r1 = -1 := h1
  subst hr
  exact ⟨(hfail (Or.inl (by decide))).trans hone, htrace (by decide)⟩

/-! ## One-time initializer -/

theorem sprintf_1000 : sprintf_d_nl 1000 = "1000\n".data := by decide

theorem sprintf_1 : sprintf_d_nl 1 = "1\n".data := by decide

theorem sys_open_trace {env : Env} {w w' : World} {p : String} {fd : Int}
    (h : sys_open env w p = (fd, w')) : w'.trace = w.trace ++ [Event.sys_open p fd] := by
  simp only [sys_open, World.emit, Prod.mk.injEq] at h
  obtain ⟨rfl, rfl⟩ := h
  rfl

theorem sys_fstat_trace {env : Env} {w w' : World} {fd : Int} {sz : Nat}
    (h : sys_fstat env w fd = (sz, w')) : w'.trace = w.trace ++ [Event.sys_fstat fd sz] := by
  simp only [sys_fstat, World.emit, Prod.mk.injEq] at h
  obtain ⟨rfl, rfl⟩ := h
  rfl

theorem malloc_trace {env : Env} {w w' : World} {n p : Nat}
    (h : malloc env w n = (p, w')) : w'.trace = w.trace ++ [Event.malloc n p] := by
  simp only [malloc, World.emit, Prod.mk.injEq] at h
  obtain ⟨rfl, rfl⟩ := h
  rfl

theorem init_module_trace {env : Env} {w w' : World} {image len : Nat} {r : Int}
    (h : init_module env w image len = (r, w')) :
    w'.trace = w.trace ++ [Event.init_module image len r] := by
  simp only [init_module, World.emit, Prod.mk.injEq] at h
  obtain ⟨rfl, rfl⟩ := h
  rfl

theorem sys_write_trace {env : Env} {w w' : World} {fd r : Int} {bytes : List Char}
    (h : sys_write env w fd bytes = (r, w')) :
    w'.trace = w.trace ++ [Event.sys_write fd bytes r] := by
  simp only [sys_write, World.emit, Prod.mk.injEq] at h
  obtain ⟨rfl, rfl⟩ := h
  rfl

@[simp] theorem sys_read_trace (w : World) (fd : Int) (buf count : Nat) :
    (sys_read w fd buf count).trace = w.trace ++ [Event.sys_read fd buf count] := rfl

@[simp] theorem sys_close_trace (w : World) (fd : Int) :
    (sys_close w fd).trace = w.trace ++ [Event.sys_close fd] := rfl

@[simp] theorem free_trace (w : World) (p : Nat) :
    (free w p).trace = w.trace ++ [Event.free p] := rfl

@[simp] theorem pthread_mutex_init_trace (w : World) :
    (pthread_mutex_init w).trace = w.trace ++ [Event.mutex_init] := rfl

theorem sys_open_val {env : Env} {w w' : World} {p : String} {fd : Int}
    (h : sys_open env w p = (fd, w')) : fd = env.open_ret w.trace p := by
  simp only [sys_open, World.emit, Prod.mk.injEq] at h
  exact h.1.symm

theorem sys_fstat_val {env : Env} {w w' : World} {fd : Int} {sz : Nat}
    (h : sys_fstat env w fd = (sz, w')) : sz = env.fstat_size w.trace fd := by
  simp only [sys_fstat, World.emit, Prod.mk.injEq] at h
  exact h.1.symm

theorem malloc_val {env : Env} {w w' : World} {n p : Nat}
    (h : malloc env w n = (p, w')) : p = env.malloc_ret w.trace n := by
  simp only [malloc, World.emit, Prod.mk.injEq] at h
  exact h.1.symm

theorem init_module_val {env : Env} {w w' : World} {image len : Nat} {r : Int}
    (h : init_module env w image len = (r, w')) :
    r = env.init_module_ret w.trace image len := by
  simp only [init_module, World.emit, Prod.mk.injEq] at h
  exact h.1.symm

theorem sys_write_val {env : Env} {w w' : World} {fd r : Int} {bytes : List Char}
    (h : sys_write env w fd bytes = (r, w')) : r = env.write_ret w.trace fd bytes := by
  simp only [sys_write, World.emit, Prod.mk.injEq] at h
  exact h.1.symm

/-- One module load, as the four calls that ask the environment. -/
theorem load_steps {env : Env} {w0 w1 w2 w3 w4 : World} {path : String} {fd : Int}
    {size image : Nat} {r : Int}
    (h1 : sys_open env w0 path = (fd, w1)) (h2 : sys_fstat env w1 fd = (size, w2))
    (h3 : malloc env w2 size = (image, w3))
    (h4 : init_module env (sys_close (sys_read w3 fd image size) fd) image size = (r, w4)) :
    load_answers env w0.trace path fd size image r ∧
    w4.trace = w0.trace ++ load_events path fd size image r := by
  have t1 := sys_open_trace h1
  have t2 := sys_fstat_trace h2
  have t3 := malloc_trace h3
  have t4 := init_module_trace h4
  refine ⟨⟨sys_open_val h1, ?_, ?_, ?_⟩, ?_⟩
  · rw [sys_fstat_val h2, t1]
  · rw [malloc_val h3, t2, t1, List.append_assoc]
    rfl
  · rw [init_module_val h4]
    simp [t3, t2, t1]
  · simp [t4, t3, t2, t1, load_events]

theorem init_globals_trace_cases (env : Env) (w : World) :
    ∃ fd1 size1 image1 r1,
      load_answers env (w.trace ++ [Event.mutex_init]) PWM_MESON_KO fd1 size1 image1 r1 ∧
      (r1 ≠ 0 → (init_globals env w).trace =
        w.trace ++ Event.mutex_init :: load_events PWM_MESON_KO fd1 size1 image1 r1) ∧
      (r1 = 0 → ∃ fd2 size2 image2 r2,
        load_answers env
          (w.trace ++ Event.mutex_init :: load_events PWM_MESON_KO fd1 size1 image1 r1 ++
            [Event.free image1])
          PWM_CTRL_KO fd2 size2 image2 r2 ∧
        (r2 ≠ 0 → (init_globals env w).trace =
          w.trace ++ Event.mutex_init :: load_events PWM_MESON_KO fd1 size1 image1 r1 ++
            Event.free image1 :: load_events PWM_CTRL_KO fd2 size2 image2 r2) ∧
        (r2 = 0 → ∃ fd3 ret3 fd4 ret4,
          sysfs_answers env
            (w.trace ++ Event.mutex_init :: load_events PWM_MESON_KO fd1 size1 image1 r1 ++
              Event.free image1 :: load_events PWM_CTRL_KO fd2 size2 image2 r2 ++
              [Event.free image2])
            BACKLIGHT_FREQ "1000\n".data fd3 ret3 ∧
          sysfs_answers env
            (w.trace ++ Event.mutex_init :: load_events PWM_MESON_KO fd1 size1 image1 r1 ++
              Event.free image1 :: load_events PWM_CTRL_KO fd2 size2 image2 r2 ++
              Event.free image2 :: sysfs_events BACKLIGHT_FREQ fd3 "1000\n".data ret3)
            BACKLIGHT_EN "1\n".data fd4 ret4 ∧
          (init_globals env w).trace =
            w.trace ++ Event.mutex_init :: load_events PWM_MESON_KO fd1 size1 image1 r1 ++
              Event.free image1 :: load_events PWM_CTRL_KO fd2 size2 image2 r2 ++
              Event.free image2 :: sysfs_events BACKLIGHT_FREQ fd3 "1000\n".data ret3 ++
              sysfs_events BACKLIGHT_EN fd4 "1\n".data ret4)) := by
  unfold init_globals
  simp only []
  rcases h1 : sys_open env (pthread_mutex_init w) PWM_MESON_KO with ⟨fd1, w1⟩
  rcases h2 : sys_fstat env w1 fd1 with ⟨size1, w2⟩
  rcases h3 : malloc env w2 size1 with ⟨image1, w3⟩
  rcases h4 : init_module env (sys_close (sys_read w3 fd1 image1 size1) fd1) image1 size1
    with ⟨r1, w4⟩
  obtain ⟨a4, t4⟩ := load_steps h1 h2 h3 h4
  rw [pthread_mutex_init_trace] at a4 t4
  refine ⟨fd1, size1, image1, r1, a4, ?_, ?_⟩
  · intro hr
    simp only [hr, ne_eq, not_false_eq_true, if_true]
    rw [t4, List.append_assoc]
    rfl
  · intro hr
    subst hr
    simp only [ne_eq, not_true_eq_false, if_false]
    rcases h5 : sys_open env (free w4 image1) PWM_CTRL_KO with ⟨fd2, w5⟩
    rcases h6 : sys_fstat env w5 fd2 with ⟨size2, w6⟩
    rcases h7 : malloc env w6 size2 with ⟨image2, w7⟩
    rcases h8 : init_module env (sys_close (sys_read w7 fd2 image2 size2) fd2) image2 size2
      with ⟨r2, w8⟩
    obtain ⟨a8, t8⟩ := load_steps h5 h6 h7 h8
    have e4 : (free w4 image1).trace =
        w.trace ++ Event.mutex_init :: load_events PWM_MESON_KO fd1 size1 image1 0 ++
          [Event.free image1] := by
      rw [free_trace, t4, List.append_assoc w.trace]
      rfl
    rw [e4] at a8 t8
    refine ⟨fd2, size2, image2, r2, a8, ?_, ?_⟩
    · intro hr2
      simp only [hr2, ne_eq, not_false_eq_true, if_true]
      rw [t8]
      simp
    · intro hr2
      subst hr2
      simp only [ne_eq, not_true_eq_false, if_false]
      have e8 : (free w8 image2).trace =
          w.trace ++ Event.mutex_init :: load_events PWM_MESON_KO fd1 size1 image1 0 ++
            Event.free image1 :: load_events PWM_CTRL_KO fd2 size2 image2 0 ++
            [Event.free image2] := by
        rw [free_trace, t8]
        simp
      rcases h9 : sys_open env (free w8 image2) BACKLIGHT_FREQ with ⟨fd3, w9⟩
      have t9 := sys_open_trace h9
      have v9 := sys_open_val h9
      rw [e8] at t9 v9
      by_cases c3 : 0 < fd3
      · simp only [gt_iff_lt, c3, if_true, List.take_length]
        rcases h10 : sys_write env w9 fd3 (sprintf_d_nl 1000) with ⟨ret3, w10⟩
        have t10 := sys_write_trace h10
        have v10 := sys_write_val h10
        rw [t9, sprintf_1000] at t10 v10
        rcases h11 : sys_open env (sys_close w10 fd3) BACKLIGHT_EN with ⟨fd4, w11⟩
        have t11 := sys_open_trace h11
        have v11 := sys_open_val h11
        rw [sys_close_trace, t10] at t11 v11
        have s3 : sysfs_events BACKLIGHT_FREQ fd3 "1000\n".data ret3 =
            [Event.sys_open BACKLIGHT_FREQ fd3, Event.sys_write fd3 "1000\n".data ret3,
              Event.sys_close fd3] := by simp [sysfs_events, c3]
        by_cases c4 : 0 < fd4
        · simp only [gt_iff_lt, c4, if_true, List.take_length]
          rcases h12 : sys_write env w11 fd4 (sprintf_d_nl 1) with ⟨ret4, w12⟩
          have t12 := sys_write_trace h12
          have v12 := sys_write_val h12
          rw [t11, sprintf_1] at t12 v12
          refine ⟨fd3, ret3, fd4, ret4, ⟨v9, v10⟩, ⟨?_, ?_⟩, ?_⟩
          · rw [v11, s3]; simp
          · rw [v12, s3]; simp
          · rw [sys_close_trace, t12, s3]
            simp [sysfs_events, c4]
        · simp only [gt_iff_lt, c4, if_false]
          refine ⟨fd3, ret3, fd4, _, ⟨v9, v10⟩, ⟨?_, rfl⟩, ?_⟩
          · rw [v11, s3]; simp
          · rw [t11, s3]
            simp [sysfs_events, c4]
      · simp only [gt_iff_lt, c3, if_false]
        have s3 : ∀ ret3, sysfs_events BACKLIGHT_FREQ fd3 "1000\n".data ret3 =
            [Event.sys_open BACKLIGHT_FREQ fd3] := by
          intro ret3
          simp [sysfs_events, c3]
        rcases h11 : sys_open env w9 BACKLIGHT_EN with ⟨fd4, w11⟩
        have t11 := sys_open_trace h11
        have v11 := sys_open_val h11
        rw [t9] at t11 v11
        by_cases c4 : 0 < fd4
        · simp only [gt_iff_lt, c4, if_true, List.take_length]
          rcases h12 : sys_write env w11 fd4 (sprintf_d_nl 1) with ⟨ret4, w12⟩
          have t12 := sys_write_trace h12
          have v12 := sys_write_val h12
          rw [t11, sprintf_1] at t12 v12
          refine ⟨fd3, _, fd4, ret4, ⟨v9, rfl⟩, ⟨?_, ?_⟩, ?_⟩
          · rw [v11, s3]; simp
          · rw [v12, s3]; simp
          · rw [sys_close_trace, t12, s3]
            simp [sysfs_events, c4]
        · simp only [gt_iff_lt, c4, if_false]
          refine ⟨fd3, _, fd4, _, ⟨v9, rfl⟩, ⟨?_, rfl⟩, ?_⟩
          · rw [v11, s3]; simp
          · rw [t11, s3]
            simp [sysfs_events, c4]

theorem strcmp_eq_zero_iff (a b : List Nat) : strcmp a b = 0 ↔ c_string a = c_string b := by
  induction a generalizing b with
  | nil =>
    cases b with
    | nil => simp [strcmp, c_string]
    | cons b bs =>
      by_cases hb : b = 0
      · simp [strcmp, c_string, hb]
      · simp [strcmp, c_string, hb]
  | cons a as ih =>
    cases b with
    | nil =>
      by_cases ha : a = 0
      · simp [strcmp, c_string, ha]
      · simp [strcmp, c_string, ha]
    | cons b bs =>
      by_cases hab : a = b
      · subst hab
        by_cases ha : a = 0
        · simp [strcmp, c_string, ha]
        · have := ih bs
          simp only [c_string] at this
          simp [strcmp, c_string, ha, this]
      · have hne : (a : Int) - (b : Int) ≠ 0 := by omega
        by_cases ha : a = 0 <;> by_cases hb : b = 0 <;>
          simp [strcmp, c_string, hab, ha, hb, hne]
        all_goals omega

theorem c_string_ids : ∀ id ∈ light_table.map Prod.fst, c_string id = id := by decide

theorem select_setter_table (id : List Nat) (setter : FnPtr) (h : (id, setter) ∈ light_table) :
    select_setter id = some setter := by
  simp only [light_table, List.mem_cons, Prod.mk.injEq, List.mem_singleton, List.not_mem_nil,
    or_false] at h
  rcases h with ⟨rfl, rfl⟩ | ⟨rfl, rfl⟩ | ⟨rfl, rfl⟩ | ⟨rfl, rfl⟩ | ⟨rfl, rfl⟩ | ⟨rfl, rfl⟩ <;> decide

theorem select_setter_none_iff (name : List Nat) :
    select_setter name = none ↔ c_string name ∉ light_table.map Prod.fst := by
  have e : ∀ id, (0 = strcmp id name) ↔ (c_string id = c_string name) := fun id => by
    rw [eq_comm, strcmp_eq_zero_iff]
  have h1 : c_string LIGHT_ID_BACKLIGHT = LIGHT_ID_BACKLIGHT := by decide
  have h2 : c_string LIGHT_ID_KEYBOARD = LIGHT_ID_KEYBOARD := by decide
  have h3 : c_string LIGHT_ID_BUTTONS = LIGHT_ID_BUTTONS := by decide
  have h4 : c_string LIGHT_ID_BATTERY = LIGHT_ID_BATTERY := by decide
  have h5 : c_string LIGHT_ID_NOTIFICATIONS = LIGHT_ID_NOTIFICATIONS := by decide
  have h6 : c_string LIGHT_ID_ATTENTION = LIGHT_ID_ATTENTION := by decide
  simp only [select_setter, e, h1, h2, h3, h4, h5, h6, light_table, List.map_cons, List.map_nil,
    List.mem_cons, List.mem_singleton, List.not_mem_nil, or_false, not_or]
  split_ifs with a b c d f g
  · exact ⟨fun x => (by cases x), fun x => (x.1 a.symm).elim⟩
  · exact ⟨fun x => (by cases x), fun x => (x.2.1 b.symm).elim⟩
  · exact ⟨fun x => (by cases x), fun x => (x.2.2.1 c.symm).elim⟩
  · exact ⟨fun x => (by cases x), fun x => (x.2.2.2.1 d.symm).elim⟩
  · exact ⟨fun x => (by cases x), fun x => (x.2.2.2.2.1 f.symm).elim⟩
  · exact ⟨fun x => (by cases x), fun x => (x.2.2.2.2.2 g.symm).elim⟩
  · exact ⟨fun _ => ⟨fun x => a x.symm, fun x => b x.symm, fun x => c x.symm,
      fun x => d x.symm, fun x => f x.symm, fun x => g x.symm⟩, fun _ => rfl⟩

theorem load_store (w : World) (p : Nat) (d : light_device_t) :
    (w.store p d).load p = some d := by
  simp [World.store, World.load]

theorem open_lights_rejects (env : Env) (w : World) (module : Nat) (name : List Nat)
    (device : Nat) (h : c_string name ∉ light_table.map Prod.fst) :
    open_lights env w module name device = (-EINVAL, w, device) := by
  have := (select_setter_none_iff name).mpr h
  simp [open_lights, this]

theorem open_lights_accepts (env : Env) (w : World) (module : Nat) (id : List Nat)
    (setter : FnPtr) (device : Nat) (h : select_setter id = some setter) :
    open_lights env w module id device =
      if env.malloc_ret (pthread_once env w).trace env.sizeof_light_device_t = 0 then
        (-EINVAL,
          (pthread_once env w).emit (Event.malloc env.sizeof_light_device_t 0), device)
      else
        (0,
          ((pthread_once env w).emit
              (Event.malloc env.sizeof_light_device_t
                (env.malloc_ret (pthread_once env w).trace env.sizeof_light_device_t))).store
            (env.malloc_ret (pthread_once env w).trace env.sizeof_light_device_t)
            { common := { tag := HARDWARE_DEVICE_TAG, version := 0, module := module,
                          reserved := List.replicate HW_RESERVED_WORDS 0,
                          close := FnPtr.close_lights },
              set_light := setter },
          env.malloc_ret (pthread_once env w).trace env.sizeof_light_device_t) := by
  simp only [open_lights, h, malloc, zero_device]
  split_ifs with h0
  · rw [h0]
  · rfl

/-- C1 fails as stated: with a recognised identifier but a failing allocation,
open_lights returns -EINVAL and stores no handle. -/
theorem open_lights_alloc_failure_counterexample :
    (open_lights env_no_mem world0 7 LIGHT_ID_BACKLIGHT 0).1 = -22 ∧
    (open_lights env_no_mem world0 7 LIGHT_ID_BACKLIGHT 0).2.2 = 0 := by
  decide

/-- C1 (amended): for each of the six identifiers, after the one-time
initializer gate, if the allocation of the record succeeds then open_lights
returns 0 and stores a non-null handle whose record has the identifier's setter,
tag HARDWARE_DEVICE_TAG, version 0, the module argument, close_lights and zero in
every reserved word; if the allocation fails it returns -EINVAL and leaves
the stored handle as it was. -/
theorem open_lights_binds_setter_when_allocated (env : Env) (w : World) (module : Nat)
    (id : List Nat) (setter : FnPtr) (device : Nat) (h : (id, setter) ∈ light_table) :
    (env.malloc_ret (pthread_once env w).trace env.sizeof_light_device_t ≠ 0 →
      (open_lights env w module id device).1 = 0 ∧
      (open_lights env w module id device).2.2 ≠ 0 ∧
      (open_lights env w module id device).2.2 =
        env.malloc_ret (pthread_once env w).trace env.sizeof_light_device_t ∧
      (open_lights env w module id device).2.1.load (open_lights env w module id device).2.2 =
        some { common := { tag := HARDWARE_DEVICE_TAG, version := 0, module := module,
                           reserved := [0, 0, 0, 0, 0, 0, 0, 0, 0, 0, 0, 0],
                           close := FnPtr.close_lights },
               set_light := setter }) ∧
    (env.malloc_ret (pthread_once env w).trace env.sizeof_light_device_t = 0 →
      (open_lights env w module id device).1 = -EINVAL ∧
      (open_lights env w module id device).2.2 = device) := by
  rw [open_lights_accepts env w module id setter device (select_setter_table id setter h)]
  constructor
  · intro hp
    rw [if_neg hp]
    exact ⟨rfl, hp, rfl, load_store _ _ _⟩
  · intro hp
    rw [if_pos hp]
    exact ⟨rfl, rfl⟩

/-- Witness for C1 (amended): opening "notifications" where every call succeeds. -/
theorem open_lights_binds_setter_when_allocated_witness :
    (LIGHT_ID_NOTIFICATIONS, FnPtr.set_light_notifications) ∈ light_table ∧
    env_ok.malloc_ret (pthread_once env_ok world0).trace env_ok.sizeof_light_device_t ≠ 0 ∧
    (open_lights env_ok world0 7 LIGHT_ID_NOTIFICATIONS 0).1 = 0 ∧
    (open_lights env_ok world0 7 LIGHT_ID_NOTIFICATIONS 0).2.2 ≠ 0 :=
  ⟨by decide, by decide,
    ((open_lights_binds_setter_when_allocated env_ok world0 7 LIGHT_ID_NOTIFICATIONS
      FnPtr.set_light_notifications 0 (by decide)).1 (by decide)).1,
    ((open_lights_binds_setter_when_allocated env_ok world0 7 LIGHT_ID_NOTIFICATIONS
      FnPtr.set_light_notifications 0 (by decide)).1 (by decide)).2.1⟩

/-- C2: for every name whose C string is not one of the six identifiers,
open_lights returns -EINVAL (-22), leaves the stored handle unchanged and leaves
the world unchanged (no allocation, no initializer run, no other call); the
empty string, another case, a prefix, an extension, "bluetooth" and "wifi" are
such names. -/
theorem open_lights_rejects_unknown_name (env : Env) (w : World) (module : Nat)
    (name : List Nat) (device : Nat) (h : c_string name ∉ light_table.map Prod.fst) :
    open_lights env w module name device = (-EINVAL, w, device) ∧
    -EINVAL = -22 ∧
    (∀ s ∈ ["", "Backlight", "back", "backlights", "bluetooth", "wifi"],
      c_string (cstr s) ∉ light_table.map Prod.fst) :=
  ⟨open_lights_rejects env w module name device h, by decide, by decide⟩

/-- Witness for C2 at the name "wifi". -/
theorem open_lights_rejects_unknown_name_witness :
    c_string (cstr "wifi") ∉ light_table.map Prod.fst ∧
    open_lights env_ok world0 7 (cstr "wifi") 5 = (-EINVAL, world0, 5) :=
  ⟨by decide, (open_lights_rejects_unknown_name env_ok world0 7 (cstr "wifi") 5 (by decide)).1⟩

/-! ## The run-once gate over sequences of calls -/

theorem init_runs_init_globals (env : Env) (w : World) :
    init_runs (init_globals env w) = init_runs w + 1 := by
  obtain ⟨fd1, size1, image1, r1, -, hA, hB⟩ := init_globals_trace_cases env w
  by_cases h1 : r1 = 0
  · obtain ⟨fd2, size2, image2, r2, -, hC, hD⟩ := hB h1
    by_cases h2 : r2 = 0
    · obtain ⟨fd3, ret3, fd4, ret4, -, -, hE⟩ := hD h2
      simp only [init_runs, hE, load_events, sysfs_events]
      split_ifs <;> simp [List.count_append, List.count_cons]
    · simp [init_runs, hC h2, load_events, List.count_append, List.count_cons]
  · simp [init_runs, hA h1, load_events, List.count_append, List.count_cons]

theorem pthread_once_g_init (env : Env) (w : World) : (pthread_once env w).g_init = true := by
  unfold pthread_once
  split_ifs with h
  · exact h
  · rfl

theorem pthread_once_trace (env : Env) (w : World) :
    (pthread_once env w).trace = if w.g_init then w.trace else (init_globals env w).trace := by
  unfold pthread_once
  split_ifs <;> rfl

theorem pthread_once_inv (env : Env) (w : World) (h : once_inv w) :
    init_runs (pthread_once env w) = 1 := by
  unfold once_inv at h
  unfold init_runs at h ⊢
  rw [pthread_once_trace]
  by_cases g : w.g_init = true
  · simpa [g] using h
  · have := init_runs_init_globals env w
    unfold init_runs at this
    simp only [g] at h ⊢
    simp only [Bool.false_eq_true, if_false] at h ⊢
    omega

theorem select_setter_some (name : List Nat) (h : c_string name ∈ light_table.map Prod.fst) :
    ∃ setter, select_setter name = some setter := by
  cases hs : select_setter name with
  | none => exact absurd h ((select_setter_none_iff name).mp hs)
  | some f => exact ⟨f, rfl⟩

theorem step_open_recognised (env : Env) (w : World) (module : Nat) (name : List Nat)
    (device : Nat) (h : c_string name ∈ light_table.map Prod.fst) :
    (step env w (Call.open_lights module name device)).g_init = true ∧
    (step env w (Call.open_lights module name device)).trace =
      (pthread_once env w).trace ++
        [Event.malloc env.sizeof_light_device_t
          (env.malloc_ret (pthread_once env w).trace env.sizeof_light_device_t)] := by
  obtain ⟨setter, hs⟩ := select_setter_some name h
  simp only [step, open_lights_accepts env w module name setter device hs]
  split_ifs with h0
  · simp [World.emit, pthread_once_g_init, h0]
  · simp [World.emit, World.store, pthread_once_g_init]

theorem set_light_backlight_g_init (env : Env) (w : World) (dev : Nat) (state : light_state_t) :
    (set_light_backlight env w dev state).2.g_init = w.g_init := by
  simp only [set_light_backlight, pthread_mutex_lock, pthread_mutex_unlock, sys_open, sys_write,
    sys_close, World.emit]
  split_ifs <;> rfl

theorem call_set_light_frame (env : Env) (w : World) (f : FnPtr) (dev : Nat)
    (state : light_state_t) :
    (call_set_light env w f dev state).2.g_init = w.g_init ∧
    init_runs (call_set_light env w f dev state).2 = init_runs w := by
  cases f <;>
    simp only [call_set_light, set_light_keyboard, set_light_buttons, set_light_battery,
      set_light_notifications, set_light_attention, and_self]
  refine ⟨set_light_backlight_g_init env w dev state, ?_⟩
  simp only [init_runs, set_light_backlight_trace]
  split_ifs <;> simp [List.count_append, List.count_cons]

theorem step_unrecognised (env : Env) (w : World) (c : Call) (h : recognised c = false) :
    (step env w c).g_init = w.g_init ∧ init_runs (step env w c) = init_runs w := by
  cases c with
  | open_lights module name device =>
    have hn : c_string name ∉ light_table.map Prod.fst := by
      simpa [recognised] using h
    simp [step, open_lights_rejects env w module name device hn]
  | close_lights dev =>
    exact close_lights_frame env w dev
  | set_light dev state =>
    simp only [step]
    cases w.load dev with
    | none => exact ⟨rfl, rfl⟩
    | some d => exact call_set_light_frame env w d.set_light dev state

theorem run_append (env : Env) (w : World) (xs ys : List Call) :
    run env w (xs ++ ys) = run env (run env w xs) ys := by
  simp [run, List.foldl_append]

theorem step_inv (env : Env) (w : World) (c : Call) (h : once_inv w) :
    once_inv (step env w c) ∧
    ((step env w c).g_init = true ↔ w.g_init = true ∨ recognised c = true) := by
  cases hc : recognised c with
  | false =>
    obtain ⟨hg, hn⟩ := step_unrecognised env w c hc
    refine ⟨?_, by simp [hg]⟩
    unfold once_inv at h ⊢
    rw [hg, hn, h]
  | true =>
    cases c with
    | open_lights module name device =>
      have hn : c_string name ∈ light_table.map Prod.fst := by
        simpa [recognised] using hc
      obtain ⟨hg, ht⟩ := step_open_recognised env w module name device hn
      refine ⟨?_, by simp [hg]⟩
      have h1 := pthread_once_inv env w h
      unfold once_inv
      unfold init_runs at h1 ⊢
      rw [hg, ht]
      simp [List.count_append, List.count_cons, h1]
    | close_lights dev => simp [recognised] at hc
    | set_light dev state => simp [recognised] at hc

theorem run_inv (env : Env) (calls : List Call) (w : World) (h : once_inv w) :
    once_inv (run env w calls) ∧
    ((run env w calls).g_init = true ↔ w.g_init = true ∨ ∃ c ∈ calls, recognised c = true) := by
  induction calls generalizing w with
  | nil => simp [run, h]
  | cons c cs ih =>
    obtain ⟨h1, h2⟩ := step_inv env w c h
    obtain ⟨h3, h4⟩ := ih (step env w c) h1
    have e : run env w (c :: cs) = run env (step env w c) cs := rfl
    rw [e]
    refine ⟨h3, ?_⟩
    rw [h4, h2]
    simp only [List.mem_cons, exists_eq_or_imp]
    tauto

theorem once_inv_world0 : once_inv world0 := by
  unfold once_inv
  decide

/-- C8: over every sequence of host calls made in a fresh process (opens with
any names, closes, brightness requests) and in every environment, including
those where a module load fails and the initializer aborts, init_globals runs at
most once; it runs exactly once if and only if some call is an open naming a
recognised identifier; it has not run before the first such open, that open
consists of the whole initializer followed by the allocation of the handle,
and the count is still one at the end of the sequence. -/
theorem init_globals_runs_at_most_once (env : Env) (calls : List Call) :
    init_runs (run env world0 calls) ≤ 1 ∧
    (init_runs (run env world0 calls) = 1 ↔ ∃ c ∈ calls, recognised c = true) ∧
    (∀ pre post module name device,
      calls = pre ++ Call.open_lights module name device :: post →
      (∀ c ∈ pre, recognised c = false) →
      c_string name ∈ light_table.map Prod.fst →
        init_runs (run env world0 pre) = 0 ∧
        (∃ p, (run env world0 (pre ++ [Call.open_lights module name device])).trace =
          (init_globals env (run env world0 pre)).trace ++
            [Event.malloc env.sizeof_light_device_t p]) ∧
        init_runs (run env world0 (pre ++ [Call.open_lights module name device])) = 1 ∧
        init_runs (run env world0 calls) = 1) := by
  have key : ∀ cs : List Call,
      init_runs (run env world0 cs) = (if (run env world0 cs).g_init then 1 else 0) ∧
      ((run env world0 cs).g_init = true ↔ ∃ c ∈ cs, recognised c = true) := by
    intro cs
    obtain ⟨h1, h2⟩ := run_inv env cs world0 once_inv_world0
    refine ⟨h1, ?_⟩
    rw [h2]
    simp [world0]
  have one_iff : ∀ cs : List Call,
      init_runs (run env world0 cs) = 1 ↔ ∃ c ∈ cs, recognised c = true := by
    intro cs
    obtain ⟨h1, h2⟩ := key cs
    rw [← h2, h1]
    by_cases g : (run env world0 cs).g_init = true <;> simp [g]
  refine ⟨?_, one_iff calls, ?_⟩
  · rw [(key calls).1]
    split_ifs <;> omega
  · intro pre post module name device hsplit hpre hname
    have hrec : recognised (Call.open_lights module name device) = true := by
      simp [recognised, hname]
    have g0 : (run env world0 pre).g_init = false := by
      cases g : (run env world0 pre).g_init with
      | false => rfl
      | true =>
        obtain ⟨c, hc, hr⟩ := (key pre).2.mp g
        rw [hpre c hc] at hr
        cases hr
    have z : init_runs (run env world0 pre) = 0 := by
      rw [(key pre).1, g0]
      rfl
    refine ⟨z, ?_, ?_, ?_⟩
    · have e : run env (run env world0 pre) [Call.open_lights module name device] =
          step env (run env world0 pre) (Call.open_lights module name device) := rfl
      have t := (step_open_recognised env (run env world0 pre) module name device hname).2
      rw [pthread_once_trace, g0] at t
      exact ⟨_, by rw [run_append, e, t]; rfl⟩
    · exact (one_iff _).mpr ⟨_, by simp, hrec⟩
    · exact (one_iff _).mpr ⟨_, by simp [hsplit], hrec⟩

/-- Witness for C8: in the sample session, with an initializer that aborts on
the first module load, the initializer has run exactly once at the end. -/
theorem init_globals_runs_at_most_once_witness :
    demo_calls = [Call.open_lights 7 (cstr "wifi") 0] ++
      Call.open_lights 7 LIGHT_ID_BACKLIGHT 0 ::
        [Call.set_light 4096 { color := 0xFF }, Call.close_lights 4096,
         Call.open_lights 7 LIGHT_ID_BUTTONS 0] ∧
    init_runs (run env_abort world0 [Call.open_lights 7 (cstr "wifi") 0]) = 0 ∧
    init_runs (run env_abort world0 demo_calls) = 1 :=
  ⟨rfl,
    ((init_globals_runs_at_most_once env_abort demo_calls).2.2
      [Call.open_lights 7 (cstr "wifi") 0]
      [Call.set_light 4096 { color := 0xFF }, Call.close_lights 4096,
       Call.open_lights 7 LIGHT_ID_BUTTONS 0]
      7 LIGHT_ID_BACKLIGHT 0 rfl (by decide) (by decide)).1,
    ((init_globals_runs_at_most_once env_abort demo_calls).2.2
      [Call.open_lights 7 (cstr "wifi") 0]
      [Call.set_light 4096 { color := 0xFF }, Call.close_lights 4096,
       Call.open_lights 7 LIGHT_ID_BUTTONS 0]
      7 LIGHT_ID_BACKLIGHT 0 rfl (by decide) (by decide)).2.2.2⟩

/-! ## Mutual exclusion of concurrent backlight writes -/

theorem spawn_inv (w : World) (states : List light_state_t) : sys_inv w.trace (spawn w states) := by
  refine ⟨?_, [], [], by simp, by simp [spawn], by simp [spawn]⟩
  intro i t h
  simp only [spawn, List.getElem?_map, Option.map_eq_some'] at h
  obtain ⟨s, _, rfl⟩ := h
  simp [holds_lock, spawn]

theorem owner_other {sys : Sys} {i j : Nat} {tj : Thread}
    (hown : ∀ i t, sys.threads[i]? = some t → (holds_lock t.pc = true ↔ sys.lock_owner = some i))
    (howner : sys.lock_owner = some i) (hij : i ≠ j) (hj : sys.threads[j]? = some tj) :
    holds_lock tj.pc = false := by
  cases hh : holds_lock tj.pc with
  | false => rfl
  | true =>
    have := (hown j tj hj).mp hh
    rw [howner] at this
    exact absurd (Option.some.inj this) hij

theorem owner_of_holds {sys : Sys} {i : Nat} {t : Thread}
    (hown : ∀ i t, sys.threads[i]? = some t → (holds_lock t.pc = true ↔ sys.lock_owner = some i))
    (ht : sys.threads[i]? = some t) (hh : holds_lock t.pc = true) :
    sys.lock_owner = some i := (hown i t ht).mp hh

/-- Ownership is preserved when the owner moves to another point inside the
locked region. -/
theorem owner_keep {sys : Sys} {i : Nat} {t t' : Thread}
    (hown : ∀ i t, sys.threads[i]? = some t → (holds_lock t.pc = true ↔ sys.lock_owner = some i))
    (ht : sys.threads[i]? = some t) (hh : holds_lock t.pc = true)
    (hh' : holds_lock t'.pc = true) :
    ∀ j tj, (sys.threads.set i t')[j]? = some tj →
      (holds_lock tj.pc = true ↔ sys.lock_owner = some j) := by
  intro j tj hj
  rw [List.getElem?_set] at hj
  by_cases hij : i = j
  · subst hij
    rw [if_pos rfl] at hj
    split_ifs at hj
    cases hj
    simp [hh', (hown i t ht).mp hh]
  · rw [if_neg hij] at hj
    exact hown j tj hj

theorem get_set_self {sys : Sys} {i : Nat} {t t' : Thread} (ht : sys.threads[i]? = some t) :
    (sys.threads.set i t')[i]? = some t' := by
  have hi : i < sys.threads.length := by
    rcases List.getElem?_eq_some_iff.mp ht with ⟨h, _⟩
    exact h
  exact List.getElem?_set_self hi

theorem thread_step_inv (env : Env) (base : List Event) (sys : Sys) (i : Nat)
    (h : sys_inv base sys) : sys_inv base (thread_step env sys i) := by
  obtain ⟨hown, blocks, part, hb, htr, hprog⟩ := h
  unfold thread_step
  cases ht : sys.threads[i]? with
  | none => exact ⟨hown, blocks, part, hb, htr, hprog⟩
  | some t =>
    simp only []
    cases hpc : t.pc with
    | at_lock =>
      cases hl : sys.lock_owner with
      | some j => exact ⟨hown, blocks, part, hb, htr, hprog⟩
      | none =>
        simp only [hl] at hprog
        subst hprog
        refine ⟨?_, blocks, [Event.mutex_lock], hb, ?_, ?_⟩
        · intro j tj hj
          simp only [] at hj ⊢
          rw [List.getElem?_set] at hj
          by_cases hij : i = j
          · subst hij
            rw [if_pos rfl] at hj
            split_ifs at hj
            cases hj
            simp [holds_lock]
          · rw [if_neg hij] at hj
            have := hown j tj hj
            rw [hl] at this
            constructor
            · intro hh
              exact absurd (this.mp hh) (by simp)
            · intro hh
              exact absurd (Option.some.inj hh) hij
        · simp [pthread_mutex_lock, World.emit, htr]
        · exact ⟨_, get_set_self ht, by simp [progress]⟩
    | at_open =>
      have hh : holds_lock t.pc = true := by rw [hpc]; rfl
      have ho := owner_of_holds hown ht hh
      simp only [ho] at hprog
      obtain ⟨t0, ht0, hp0⟩ := hprog
      rw [ht] at ht0
      cases ht0
      simp only [progress, hpc] at hp0
      subst hp0
      simp only [sys_open, World.emit]
      generalize env.open_ret sys.world.trace BACKLIGHT = fd
      by_cases hfd : 0 < fd
      · refine ⟨owner_keep hown ht hh (by simp [hfd, holds_lock]), blocks,
          [Event.mutex_lock, Event.sys_open BACKLIGHT fd], hb, by simp [htr], ?_⟩
        simp only [ho]
        exact ⟨_, get_set_self ht, by simp [progress, hfd]⟩
      · refine ⟨owner_keep hown ht hh (by simp [hfd, holds_lock]), blocks,
          [Event.mutex_lock, Event.sys_open BACKLIGHT fd], hb, by simp [htr], ?_⟩
        simp only [ho]
        exact ⟨_, get_set_self ht, by simp [progress, hfd, call_block]⟩
    | at_write fd =>
      have hh : holds_lock t.pc = true := by rw [hpc]; rfl
      have ho := owner_of_holds hown ht hh
      simp only [ho] at hprog
      obtain ⟨t0, ht0, hp0⟩ := hprog
      rw [ht] at ht0
      cases ht0
      simp only [progress, hpc] at hp0
      obtain ⟨hfd, rfl⟩ := hp0
      simp only [sys_write, World.emit, List.take_length]
      generalize env.write_ret sys.world.trace fd _ = ret
      refine ⟨owner_keep hown ht hh (by simp [holds_lock]), blocks,
        [Event.mutex_lock, Event.sys_open BACKLIGHT fd,
          Event.sys_write fd (sprintf_d_nl (light_level t.state.color)) ret], hb, ?_, ?_⟩
      · simp only [htr, List.append_assoc]
        rfl
      · simp only [ho]
        exact ⟨_, get_set_self ht, by simp [progress, hfd]⟩
    | at_close fd ret =>
      have hh : holds_lock t.pc = true := by rw [hpc]; rfl
      have ho := owner_of_holds hown ht hh
      simp only [ho] at hprog
      obtain ⟨t0, ht0, hp0⟩ := hprog
      rw [ht] at ht0
      cases ht0
      simp only [progress, hpc] at hp0
      obtain ⟨hfd, rfl⟩ := hp0
      refine ⟨owner_keep hown ht hh (by simp [holds_lock]), blocks,
        [Event.mutex_lock, Event.sys_open BACKLIGHT fd,
          Event.sys_write fd (sprintf_d_nl (light_level t.state.color)) ret,
          Event.sys_close fd], hb, ?_, ?_⟩
      · simp only [sys_close, World.emit, htr, List.append_assoc]
        rfl
      · simp only [ho]
        exact ⟨_, get_set_self ht, by simp [progress, hfd, call_block]⟩
    | at_unlock ret =>
      have hh : holds_lock t.pc = true := by rw [hpc]; rfl
      have ho := owner_of_holds hown ht hh
      simp only [ho] at hprog
      obtain ⟨t0, ht0, hp0⟩ := hprog
      rw [ht] at ht0
      cases ht0
      simp only [progress, hpc] at hp0
      refine ⟨?_, blocks ++ [part ++ [Event.mutex_unlock]], [], ?_, ?_, ?_⟩
      · intro j tj hj
        simp only [] at hj ⊢
        rw [List.getElem?_set] at hj
        by_cases hij : i = j
        · subst hij
          rw [if_pos rfl] at hj
          split_ifs at hj
          cases hj
          simp [holds_lock]
        · rw [if_neg hij] at hj
          have := owner_other hown ho hij hj
          simp [this]
      · intro b hbm
        rcases List.mem_append.mp hbm with hbm | hbm
        · exact hb b hbm
        · rw [List.mem_singleton.mp hbm]
          exact hp0
      · simp [pthread_mutex_unlock, World.emit, htr]
      · rfl
    | returned ret => exact ⟨hown, blocks, part, hb, htr, hprog⟩

theorem interleave_inv (env : Env) (base : List Event) (schedule : List Nat) (sys : Sys)
    (h : sys_inv base sys) : sys_inv base (interleave env sys schedule) := by
  induction schedule generalizing sys with
  | nil => exact h
  | cons i rest ih => exact ih (thread_step env sys i) (thread_step_inv env base sys i h)

theorem set_light_backlight_block (env : Env) (w : World) (dev : Nat) (state : light_state_t) :
    ∃ b, (set_light_backlight env w dev state).2.trace = w.trace ++ b ∧ call_block b = true := by
  rw [set_light_backlight_trace]
  by_cases h : 0 < env.open_ret (w.trace ++ [Event.mutex_lock]) BACKLIGHT
  · exact ⟨_, by rw [if_pos h, List.append_assoc, List.append_assoc], by simp [call_block, h]⟩
  · exact ⟨_, by rw [if_neg h, List.append_assoc, List.append_assoc], by simp [call_block, h]⟩

theorem thread_alone (env : Env) (w : World) (dev : Nat) (state : light_state_t) :
    interleave env (spawn w [state]) [0, 0, 0, 0, 0] =
      { world := (set_light_backlight env w dev state).2, lock_owner := none,
        threads := [{ state := state,
                      pc := Pc.returned (set_light_backlight env w dev state).1 }] } := by
  simp only [interleave, spawn, List.foldl, List.map, set_light_backlight, pthread_mutex_lock,
    pthread_mutex_unlock, sys_open, sys_write, sys_close, World.emit, List.take_length]
  generalize hfd : env.open_ret (w.trace ++ [Event.mutex_lock]) BACKLIGHT = fd
  by_cases h : 0 < fd
  · simp [thread_step, pthread_mutex_lock, pthread_mutex_unlock, sys_open, sys_write, sys_close,
      World.emit, hfd, h]
  · simp [thread_step, pthread_mutex_lock, pthread_mutex_unlock, sys_open, sys_write, sys_close,
      World.emit, hfd, h]

theorem progress_extends (t : Thread) (part : List Event) (h : progress t part) :
    ∃ rest, call_block (part ++ rest) = true := by
  unfold progress at h
  cases hpc : t.pc with
  | at_lock => simp [hpc] at h
  | at_open =>
    simp only [hpc] at h
    exact ⟨[Event.sys_open BACKLIGHT 0, Event.mutex_unlock], by simp [h, call_block]⟩
  | at_write fd =>
    simp only [hpc] at h
    exact ⟨[Event.sys_write fd [] 0, Event.sys_close fd, Event.mutex_unlock],
      by simp [h.2, h.1, call_block]⟩
  | at_close fd ret =>
    simp only [hpc] at h
    exact ⟨[Event.sys_close fd, Event.mutex_unlock], by simp [h.2, h.1, call_block]⟩
  | at_unlock ret =>
    simp only [hpc] at h
    exact ⟨[Event.mutex_unlock], h⟩
  | returned ret => simp [hpc] at h

/-- C9: one call of set_light_backlight is a single block of events that starts
with the lock, then opens the duty-cycle file, writes and closes only on a
descriptor above 0, and ends with the one unlock, on the open-failure path
too; a thread of the interleaved system run alone performs exactly that call.
For any number of concurrent callers and any schedule, no two distinct threads
are inside the locked region (which contains the stretch between open and
close) at the same time, and the events of the run are whole call blocks, one
after the other, followed by at most the beginning of one block, which is empty
when nobody holds the lock. -/
theorem backlight_writes_never_interleave (env : Env) (w : World) (dev : Nat)
    (state : light_state_t) (states : List light_state_t) (schedule : List Nat) :
    (∃ b, (set_light_backlight env w dev state).2.trace = w.trace ++ b ∧
      call_block b = true) ∧
    interleave env (spawn w [state]) [0, 0, 0, 0, 0] =
      { world := (set_light_backlight env w dev state).2, lock_owner := none,
        threads := [{ state := state,
                      pc := Pc.returned (set_light_backlight env w dev state).1 }] } ∧
    (∀ pc, file_open pc = true → holds_lock pc = true) ∧
    (∀ (i j : Nat) (ti tj : Thread), i ≠ j →
      (interleave env (spawn w states) schedule).threads[i]? = some ti →
      (interleave env (spawn w states) schedule).threads[j]? = some tj →
      ¬ (holds_lock ti.pc = true ∧ holds_lock tj.pc = true)) ∧
    (∃ (blocks : List (List Event)) (part : List Event),
      (∀ b ∈ blocks, call_block b = true) ∧
      (interleave env (spawn w states) schedule).world.trace =
        w.trace ++ blocks.flatten ++ part ∧
      (part = [] ∨ ∃ rest, call_block (part ++ rest) = true) ∧
      ((interleave env (spawn w states) schedule).lock_owner = none → part = [])) := by
  obtain ⟨hown, blocks, part, hb, htr, hprog⟩ :=
    interleave_inv env w.trace schedule (spawn w states) (spawn_inv w states)
  refine ⟨set_light_backlight_block env w dev state, thread_alone env w dev state, ?_, ?_,
    blocks, part, hb, htr, ?_, ?_⟩
  · intro pc h
    cases pc <;> simp_all [file_open, holds_lock]
  · intro i j ti tj hij hi hj hboth
    have h1 := (hown i ti hi).mp hboth.1
    have h2 := (hown j tj hj).mp hboth.2
    rw [h1] at h2
    exact hij (Option.some.inj h2)
  · cases ho : (interleave env (spawn w states) schedule).lock_owner with
    | none =>
      simp only [ho] at hprog
      exact Or.inl hprog
    | some k =>
      simp only [ho] at hprog
      obtain ⟨t, _, hp⟩ := hprog
      exact Or.inr (progress_extends t part hp)
  · intro ho
    simp only [ho] at hprog
    exact hprog

/-- Witness for C9: after the sample schedule the first caller is between open
and write, the second still waits at the lock, and they are not both inside. -/
theorem backlight_writes_never_interleave_witness :
    (interleave env_ok (spawn world0 demo_states) demo_schedule).threads[0]? =
      some { state := { color := 0xFF }, pc := Pc.at_write 3 } ∧
    (interleave env_ok (spawn world0 demo_states) demo_schedule).threads[1]? =
      some { state := { color := 1 }, pc := Pc.at_lock } ∧
    ¬ (holds_lock (Pc.at_write 3) = true ∧ holds_lock Pc.at_lock = true) :=
  ⟨by decide, by decide,
    (backlight_writes_never_interleave env_ok world0 1 { color := 0xFF } demo_states
      demo_schedule).2.2.2.1 0 1 { state := { color := 0xFF }, pc := Pc.at_write 3 }
      { state := { color := 1 }, pc := Pc.at_lock } (by decide) (by decide) (by decide)⟩

end Lights
